import Mathlib

/-!
Shallow embedding of the three Python programs of this repository
(day02-api/app.py, day05-worker/worker.py, day07-probes/app-with-probes.py)
and theorems settling the behavioural claims about them.

HTTP requests are modelled as handler functions from the current in-memory
state (and, where relevant, the current time and the process environment)
to the new state and an HTTP response.  The worker loop is modelled as one
step function on a state holding the queue list, the lines of the output
file, and the loop counter.
-/

/-- A JSON value as produced by flask jsonify in these programs; only
strings and integers occur. -/
inductive JsonVal
  | str (s : String)
  | num (n : Int)
deriving DecidableEq

/-- An HTTP response: a JSON object body (an ordered list of fields) and a
status code.  flask uses status 200 when the handler gives no explicit
code. -/
structure HttpResponse where
  body : List (String × JsonVal)
  code : Nat
deriving DecidableEq

/-- os.getenv key dflt, with the process environment modelled as a partial
map from variable names to values. -/
def getenv (env : String → Option String) (key dflt : String) : String :=
  (env key).getD dflt

/-- Python int() restricted to the decimal integer literals relevant here:
a run of digits, optionally preceded by a minus sign; none models the
ValueError raised on any other string.  Helper accumulating the digits. -/
def digitsVal : List Char → Nat → Option Nat
  | [], acc => some acc
  | c :: cs, acc =>
      if c.isDigit then digitsVal cs (acc * 10 + (c.toNat - 48)) else none

/-- Python int() on a string, as a partial function (see digitsVal). -/
def pyInt (s : String) : Option Int :=
  match s.data with
  | [] => none
  | c :: cs =>
      if c = '-' then
        match cs with
        | [] => none
        | _ => (digitsVal cs 0).map (fun n => -(n : Int))
      else (digitsVal (c :: cs) 0).map (fun n => (n : Int))

/-! ## day02-api/app.py -/

/-- MESSAGE configuration of the day02 service (app.py line 7). -/
def MESSAGE (env : String → Option String) : String :=
  getenv env "MESSAGE" "Hello from Event API!"

/-- The two routes of the day02 service. -/
inductive Day02Route
  | home
  | health
deriving DecidableEq

/-- The day02 service handler.  The service keeps no mutable state: every
response depends only on the environment. -/
def day02_handle (env : String → Option String) : Day02Route → HttpResponse
  | .home =>
      ⟨[("service", .str "event-api"), ("message", .str (MESSAGE env)),
        ("version", .str "v1")], 200⟩
  | .health => ⟨[("status", .str "healthy")], 200⟩

/-! ## day05-worker/worker.py -/

/-- REDIS_HOST configuration (worker.py line 6). -/
def REDIS_HOST (env : String → Option String) : String :=
  getenv env "REDIS_HOST" "redis"

/-- REDIS_PORT configuration, int(os.getenv(..)) (worker.py line 7). -/
def REDIS_PORT (env : String → Option String) : Option Int :=
  pyInt (getenv env "REDIS_PORT" "6379")

/-- OUTPUT_DIR configuration (worker.py line 8). -/
def OUTPUT_DIR (env : String → Option String) : String :=
  getenv env "OUTPUT_DIR" "/data"

/-- WORKER_NAME configuration (worker.py line 9). -/
def WORKER_NAME (env : String → Option String) : String :=
  getenv env "WORKER_NAME" "worker-1"

/-- The path of the shared output file, OUTPUT_DIR/output.txt
(worker.py line 34). -/
def output_file (env : String → Option String) : String :=
  OUTPUT_DIR env ++ "/output.txt"

/-- State of the worker loop: the contents of the Redis list work_queue,
the lines of the output file, and the loop counter. -/
structure WorkerState where
  queue : List String
  file : List String
  counter : Nat
deriving DecidableEq

/-- redis lpop on a list with decode_responses=True: returns the head (or
none when the list is empty) and the remaining list. -/
def lpop (l : List String) : Option String × List String :=
  (l.head?, l.tail)

/-- Python truthiness of the lpop result: None and the empty string are
falsy, every other string is truthy. -/
def truthy : Option String → Bool
  | none => false
  | some s => s != ""

/-- The line appended to the output file for a processed message
(worker.py line 36). -/
def processedLine (name msg : String) : String :=
  "[" ++ name ++ "] Processed: " ++ msg

/-- One iteration of the worker loop (worker.py lines 25-45): increment
the counter, lpop the work_queue list, and either append a line to the
output file (when the popped message is truthy) or emit only a heartbeat
log every tenth iteration.  Returns the new state and the log lines
printed by the iteration. -/
def workerStep (name : String) (s : WorkerState) : WorkerState × List String :=
  let counter := s.counter + 1
  let popped := lpop s.queue
  if truthy popped.1 then
    let m := popped.1.getD ""
    (⟨popped.2, s.file ++ [processedLine name m], counter⟩,
      ["[" ++ name ++ "] Processing: " ++ m,
       "[" ++ name ++ "] Completed: " ++ m])
  else
    (⟨popped.2, s.file, counter⟩,
      if counter % 10 == 0 then
        ["[" ++ name ++ "] Waiting for work... (checked " ++
          toString counter ++ " times)"]
      else [])

/-- Outcome of the single startup attempt to connect to Redis and ping it
(worker.py lines 15-17); failed carries the exception message. -/
inductive ConnResult
  | connected
  | failed (err : String)
deriving DecidableEq

/-- The observable outcome of a worker run: log lines, the exit code (none
when the process did not exit), the number of loop iterations executed,
and the final loop state. -/
structure WorkerRun where
  logs : List String
  exitCode : Option Nat
  iterations : Nat
  final : WorkerState
deriving DecidableEq

/-- Run the worker loop for a given number of iterations, collecting logs. -/
def runLoop (name : String) (s : WorkerState) : Nat → WorkerState × List String
  | 0 => (s, [])
  | n + 1 =>
      let step := workerStep name s
      let rest := runLoop name step.1 n
      (rest.1, step.2 ++ rest.2)

/-- The worker process after its startup banner (worker.py lines 15-45):
on a connection or ping failure it logs the failure and exits with code 1
without entering the loop; otherwise it logs success and runs the loop.
The loop itself never terminates; fuel bounds the iterations observed. -/
def workerMain (name : String) (conn : ConnResult) (fuel : Nat)
    (init : WorkerState) : WorkerRun :=
  match conn with
  | .failed e =>
      ⟨["[" ++ name ++ "] Failed to connect to Redis: " ++ e],
        some 1, 0, init⟩
  | .connected =>
      let run := runLoop name init fuel
      ⟨["[" ++ name ++ "] Connected to Redis successfully!"] ++ run.2,
        none, fuel, run.1⟩

/-! ## day07-probes/app-with-probes.py -/

/-- Python int() truncation toward zero on a rational, used for the uptime
field of the home route. -/
def ratTrunc (q : ℚ) : Int :=
  if 0 ≤ q then Rat.floor q else -(Rat.floor (-q))

/-- MESSAGE as read by the day07 home route, whose default differs from
the day02 one (app-with-probes.py line 16). -/
def day07_message (env : String → Option String) : String :=
  getenv env "MESSAGE" "Hello!"

/-- In-memory state of the probes service (app-with-probes.py lines 8-10):
the recorded start time and the two flags. -/
structure AppState where
  start_time : ℚ
  healthy : Bool
  ready : Bool
deriving DecidableEq

/-- The seven routes of the probes service, named after their handler
functions. -/
inductive Day07Route
  | home
  | health
  | ready_check
  | startup
  | fail
  | unready
  | recover
deriving DecidableEq

/-- The probes service handler: given the environment, the current time
and the current state, each route yields the new state and the response.
Time is modelled as a rational number of seconds. -/
def day07_handle (env : String → Option String) (now : ℚ) (s : AppState) :
    Day07Route → AppState × HttpResponse
  | .home =>
      (s, ⟨[("service", .str "event-api"),
            ("message", .str (day07_message env)),
            ("uptime", .num (ratTrunc (now - s.start_time)))], 200⟩)
  | .health =>
      if s.healthy then (s, ⟨[("status", .str "healthy")], 200⟩)
      else (s, ⟨[("status", .str "unhealthy")], 500⟩)
  | .ready_check =>
      if s.ready then (s, ⟨[("status", .str "ready")], 200⟩)
      else (s, ⟨[("status", .str "not ready")], 503⟩)
  | .startup =>
      if now - s.start_time > 5 then
        (s, ⟨[("status", .str "started")], 200⟩)
      else (s, ⟨[("status", .str "starting")], 503⟩)
  | .fail =>
      (⟨s.start_time, false, s.ready⟩,
        ⟨[("message", .str "Liveness will now fail")], 200⟩)
  | .unready =>
      (⟨s.start_time, s.healthy, false⟩,
        ⟨[("message", .str "Readiness will now fail")], 200⟩)
  | .recover =>
      (⟨s.start_time, true, true⟩,
        ⟨[("message", .str "All probes recovered")], 200⟩)

/-- The reachable states of the probes service: the initial state (both
flags true, any start time) and everything obtained by handling any
request at any time in any environment. -/
inductive Reachable : AppState → Prop
  | init (t : ℚ) : Reachable ⟨t, true, true⟩
  | step (env : String → Option String) (now : ℚ) (e : Day07Route)
      {s : AppState} : Reachable s → Reachable (day07_handle env now s e).1

/-! ## Theorems about the claims -/

/-- C1: in the probes service, for every reachable state, GET /health
returns HTTP status 200 with JSON body status healthy when the healthy
flag is true, and HTTP status 500 with JSON body status unhealthy
otherwise. -/
theorem probes_health_status (env : String → Option String) (now : ℚ)
    (s : AppState) (hr : Reachable s) :
    (s.healthy = true →
      (day07_handle env now s .health).2 = ⟨[("status", .str "healthy")], 200⟩) ∧
    (s.healthy = false →
      (day07_handle env now s .health).2 = ⟨[("status", .str "unhealthy")], 500⟩) := by
  constructor <;> intro h <;> simp [day07_handle, h]

/-- Witness for probes_health_status at the initial state. -/
theorem probes_health_status_witness :
    (day07_handle (fun _ => none) 0 ⟨0, true, true⟩ .health).2 =
      ⟨[("status", .str "healthy")], 200⟩ :=
  (probes_health_status (fun _ => none) 0 ⟨0, true, true⟩ (Reachable.init 0)).1 rfl

/-- C2: in the probes service, after handling GET /fail from any prior
state, the in-memory healthy flag is false. -/
theorem probes_fail_unhealthy (env : String → Option String) (now : ℚ)
    (s : AppState) :
    (day07_handle env now s .fail).1.healthy = false := rfl

/-- C3: a worker iteration in which the pop of the work queue returns no
item because the list is empty leaves the output file unchanged. -/
theorem worker_empty_pop_file_unchanged (name : String) (s : WorkerState)
    (h : s.queue = []) :
    (workerStep name s).1.file = s.file := by
  simp [workerStep, lpop, h, truthy]

/-- Witness for worker_empty_pop_file_unchanged on an empty queue. -/
theorem worker_empty_pop_file_unchanged_witness :
    (workerStep "worker-1" ⟨[], ["old line"], 0⟩).1.file = ["old line"] :=
  worker_empty_pop_file_unchanged "worker-1" ⟨[], ["old line"], 0⟩ rfl

/-- C4 counterexample: the claim that every popped item is appended to the
output file is false.  An empty string in the queue is popped by lpop, but
Python truthiness treats it as no message, so nothing is appended. -/
theorem worker_append_claim_counterexample :
    ¬ (∀ (name : String) (s : WorkerState) (m : String) (rest : List String),
        s.queue = m :: rest →
        (workerStep name s).1.file = s.file ++ [processedLine name m]) := by
  intro hclaim
  have h := hclaim "worker-1" ⟨[""], [], 0⟩ "" [] rfl
  simp [workerStep, lpop, truthy, processedLine] at h

/-- C4 amended: every non-empty item popped from the work queue is
appended to the output file as the single line
[WORKER_NAME] Processed: item, and the item is removed from the queue. -/
theorem worker_pop_append_nonempty (name : String) (s : WorkerState)
    (m : String) (rest : List String) (hq : s.queue = m :: rest)
    (hm : m ≠ "") :
    (workerStep name s).1.file = s.file ++ [processedLine name m] ∧
    (workerStep name s).1.queue = rest := by
  simp [workerStep, lpop, hq, truthy, hm]

/-- Witness for worker_pop_append_nonempty on a one-element queue. -/
theorem worker_pop_append_nonempty_witness :
    (workerStep "worker-1" ⟨["task"], [], 0⟩).1.file =
      [processedLine "worker-1" "task"] ∧
    (workerStep "worker-1" ⟨["task"], [], 0⟩).1.queue = [] := by
  have h := worker_pop_append_nonempty "worker-1" ⟨["task"], [], 0⟩ "task" []
    rfl (by decide)
  simpa using h

/-- C5: when the startup connection or ping to Redis fails, the worker
logs the failure, exits with code 1, runs zero loop iterations, and leaves
its state untouched; there is no retry. -/
theorem worker_conn_failure_exits (name e : String) (fuel : Nat)
    (init : WorkerState) :
    workerMain name (.failed e) fuel init =
      ⟨["[" ++ name ++ "] Failed to connect to Redis: " ++ e],
        some 1, 0, init⟩ := rfl

/-- C6: in the probes service, for every reachable state, GET /ready
returns HTTP status 200 with JSON body status ready when the ready flag is
true, and HTTP status 503 with JSON body status not ready otherwise. -/
theorem probes_ready_status (env : String → Option String) (now : ℚ)
    (s : AppState) (hr : Reachable s) :
    (s.ready = true →
      (day07_handle env now s .ready_check).2 = ⟨[("status", .str "ready")], 200⟩) ∧
    (s.ready = false →
      (day07_handle env now s .ready_check).2 = ⟨[("status", .str "not ready")], 503⟩) := by
  constructor <;> intro h <;> simp [day07_handle, h]

/-- Witness for probes_ready_status at the initial state. -/
theorem probes_ready_status_witness :
    (day07_handle (fun _ => none) 0 ⟨0, true, true⟩ .ready_check).2 =
      ⟨[("status", .str "ready")], 200⟩ :=
  (probes_ready_status (fun _ => none) 0 ⟨0, true, true⟩ (Reachable.init 0)).1 rfl

/-- C7: GET /startup returns HTTP status 200 with JSON body status started
iff the elapsed time since process start exceeds 5 seconds, and HTTP
status 503 with JSON body status starting otherwise; the response is
independent of the healthy and ready flags. -/
theorem probes_startup_uptime (env : String → Option String) (now : ℚ)
    (s : AppState) :
    ((day07_handle env now s .startup).2.code = 200 ↔ now - s.start_time > 5) ∧
    ((day07_handle env now s .startup).2 =
      if now - s.start_time > 5 then ⟨[("status", .str "started")], 200⟩
      else ⟨[("status", .str "starting")], 503⟩) ∧
    (∀ h r : Bool,
      (day07_handle env now ⟨s.start_time, h, r⟩ .startup).2 =
        (day07_handle env now s .startup).2) := by
  refine ⟨?_, ?_, ?_⟩
  · by_cases hc : now - s.start_time > 5 <;> simp [day07_handle, hc]
  · by_cases hc : now - s.start_time > 5 <;> simp [day07_handle, hc]
  · intro h r
    by_cases hc : now - s.start_time > 5 <;> simp [day07_handle, hc]

/-- C8: each configuration variable that is unset in the environment
yields its built-in default; in particular the default Redis port string
parses, so the program proceeds rather than failing. -/
theorem env_defaults (env : String → Option String) :
    (env "MESSAGE" = none → MESSAGE env = "Hello from Event API!") ∧
    (env "MESSAGE" = none → day07_message env = "Hello!") ∧
    (env "REDIS_HOST" = none → REDIS_HOST env = "redis") ∧
    (env "REDIS_PORT" = none → REDIS_PORT env = some 6379) ∧
    (env "OUTPUT_DIR" = none → OUTPUT_DIR env = "/data") ∧
    (env "WORKER_NAME" = none → WORKER_NAME env = "worker-1") := by
  refine ⟨?_, ?_, ?_, ?_, ?_, ?_⟩ <;> intro h <;>
    simp [MESSAGE, day07_message, REDIS_HOST, REDIS_PORT, OUTPUT_DIR,
      WORKER_NAME, getenv, h]
  decide

/-- Witness for env_defaults on the empty environment. -/
theorem env_defaults_witness :
    MESSAGE (fun _ => none) = "Hello from Event API!" ∧
    day07_message (fun _ => none) = "Hello!" ∧
    REDIS_HOST (fun _ => none) = "redis" ∧
    REDIS_PORT (fun _ => none) = some 6379 ∧
    OUTPUT_DIR (fun _ => none) = "/data" ∧
    WORKER_NAME (fun _ => none) = "worker-1" := by
  have h := env_defaults (fun _ => none)
  exact ⟨h.1 rfl, h.2.1 rfl, h.2.2.1 rfl, h.2.2.2.1 rfl,
    h.2.2.2.2.1 rfl, h.2.2.2.2.2 rfl⟩

/-- C9: handling GET /fail changes no state other than the healthy flag:
the ready flag and the recorded start time are unchanged, for every prior
state. -/
theorem probes_fail_frame (env : String → Option String) (now : ℚ)
    (s : AppState) :
    (day07_handle env now s .fail).1.ready = s.ready ∧
    (day07_handle env now s .fail).1.start_time = s.start_time :=
  ⟨rfl, rfl⟩

/-- C10: in the day02 service, GET /health returns JSON body status
healthy with HTTP status 200 in every environment; the service has no
state or flag that could make it return anything else. -/
theorem day02_health_always (env : String → Option String) :
    day02_handle env .health = ⟨[("status", .str "healthy")], 200⟩ := rfl
